import Mathlib

set_option linter.unusedVariables false

/-! Verification of the TLS/SSL socket engine (Modules/_ssl.c) against its design
specification.  The C module's operations are embedded shallowly: the OpenSSL
engine and the underlying socket are modelled as oracles (a list of per-iteration
step results for each retry loop, and readiness flags for the poll/select waits),
machine integers are modelled as `Int`/`Nat`, and each C function that the claims
touch becomes a Lean function over those oracles returning a structured outcome. -/

/-- Engine-level error classes, mirroring the values returned by
`SSL_get_error` (`SSL_ERROR_NONE`, `SSL_ERROR_ZERO_RETURN`, ...).  `ok` is
`SSL_ERROR_NONE`; `invalid` stands for any other numeric code (hitting the
`default` arm of the switch in `PySSL_SetError`). -/
inductive SSLerr where
  | ok
  | zeroReturn
  | wantRead
  | wantWrite
  | wantX509
  | wantConnect
  | syscall
  | sslFail
  | invalid
deriving DecidableEq, Repr

/-- Python-level error classification (`enum py_ssl_error` in _ssl.c). -/
inductive PyErr where
  | noneErr
  | sslErr
  | wantRead
  | wantWrite
  | wantX509
  | syscallErr
  | zeroReturn
  | wantConnect
  | eof
  | noSocket
  | invalidErrorCode
deriving DecidableEq, Repr

/-- Which exception object `PySSL_SetError` raises the error through
(`PySSLErrorObject` and its subclasses). -/
inductive ExcType where
  | sslError
  | zeroReturnError
  | wantReadError
  | wantWriteError
  | syscallError
  | eofError
deriving DecidableEq, Repr

/-- The structured error object built by `fill_and_set_sslerror`: numeric
classification code, exception type and the fixed message string (when the C
code supplies one; `none` models `errstr == NULL`, where the message is built
from the OpenSSL mnemonic tables instead). -/
structure PyErrDesc where
  p : PyErr
  excType : ExcType
  errstr : Option String
deriving DecidableEq, Repr

/-- Result of `PySSL_SetError`: the typed error that was set (or `none` when
the call delegated to the socket's own `errorhandler`), whether that transport
error handler was invoked, and whether `ERR_clear_error` ran before return. -/
structure SetErrorResult where
  raised : Option PyErrDesc
  delegated : Bool
  cleared : Bool
deriving DecidableEq, Repr

/-- Embedding of `PySSL_SetError` (_ssl.c lines 367-448).  Inputs: whether
`obj->ssl` is non-NULL, whether the weak socket reference is dead
(`PyWeakref_GetObject(obj->Socket) == Py_None`), the class returned by
`SSL_get_error(obj->ssl, ret)`, the operation's return value `ret`, and
`e = ERR_peek_last_error()`. -/
def PySSL_SetError (sslPresent sockGone : Bool) (err : SSLerr) (ret : Int)
    (e : Nat) : SetErrorResult :=
  if sslPresent then
    match err with
    | .zeroReturn =>
        ⟨some ⟨.zeroReturn, .zeroReturnError,
          some "TLS/SSL connection has been closed (EOF)"⟩, false, true⟩
    | .wantRead =>
        ⟨some ⟨.wantRead, .wantReadError,
          some "The operation did not complete (read)"⟩, false, true⟩
    | .wantWrite =>
        ⟨some ⟨.wantWrite, .wantWriteError,
          some "The operation did not complete (write)"⟩, false, true⟩
    | .wantX509 =>
        ⟨some ⟨.wantX509, .sslError,
          some "The operation did not complete (X509 lookup)"⟩, false, true⟩
    | .wantConnect =>
        ⟨some ⟨.wantConnect, .sslError,
          some "The operation did not complete (connect)"⟩, false, true⟩
    | .syscall =>
        if e = 0 then
          if ret = 0 ∨ sockGone then
            ⟨some ⟨.eof, .eofError,
              some "EOF occurred in violation of protocol"⟩, false, true⟩
          else if ret = -1 then
            -- underlying BIO reported an I/O error: ERR_clear_error();
            -- s->errorhandler(); return NULL (no SSL-layer error object)
            ⟨none, true, true⟩
          else
            ⟨some ⟨.syscallErr, .syscallError,
              some "Some I/O error occurred"⟩, false, true⟩
        else
          ⟨some ⟨.syscallErr, .sslError, none⟩, false, true⟩
    | .sslFail =>
        ⟨some ⟨.sslErr, .sslError,
          if e = 0 then some "A failure in the SSL library occurred" else none⟩,
         false, true⟩
    | .ok =>
        ⟨some ⟨.invalidErrorCode, .sslError, some "Invalid error code"⟩, false, true⟩
    | .invalid =>
        ⟨some ⟨.invalidErrorCode, .sslError, some "Invalid error code"⟩, false, true⟩
  else
    ⟨some ⟨.noneErr, .sslError, none⟩, false, true⟩

/-- The `timeout_state` enum of _ssl.c. -/
inductive SockState where
  | isNonblocking
  | isBlocking
  | hasTimedOut
  | hasBeenClosed
  | tooLargeForSelect
  | operationOk
deriving DecidableEq, Repr

/-- The underlying `PySocketSockObject`, reduced to the fields _ssl.c reads:
the file descriptor, the timeout (a C double; only its sign and zero test are
ever consulted here, so an `Int` is a faithful stand-in), and whether the
descriptor passes `_PyIsSelectable_fd` (the select() ceiling). -/
structure Sock where
  fd : Int
  timeout : Int
  selectable : Bool
deriving DecidableEq, Repr

/-- Embedding of `check_socket_and_wait_for_timeout` (_ssl.c lines 1312-1373).
`havePoll` is the `HAVE_POLL` compile flag; `ready` is the oracle outcome of
the poll()/select() wait (`true` when the descriptor became ready before the
timeout elapsed, i.e. `rc != 0`). -/
def check_socket_and_wait_for_timeout (havePoll : Bool) (s : Sock)
    (writing : Bool) (ready : Bool) : SockState :=
  if s.timeout < 0 then .isBlocking
  else if s.timeout = 0 then .isNonblocking
  else if s.fd < 0 then .hasBeenClosed
  else if havePoll then (if ready then .operationOk else .hasTimedOut)
  else if ¬s.selectable then .tooLargeForSelect
  else if ready then .operationOk else .hasTimedOut

/-- The `PySSLSocket` object, reduced to the fields the claims touch:
the weak reference to the socket (`none` when the referent is gone),
the cached peer certificate (an abstract handle), and the
`shutdown_seen_zero` flag. -/
structure PySSLSocket where
  sockRef : Option Sock
  peer_cert : Option Nat
  shutdown_seen_zero : Bool
deriving DecidableEq, Repr

/-- One iteration's engine oracle for the handshake retry loop: the value
returned by `SSL_do_handshake`, the class from `SSL_get_error`, whether
`PyErr_CheckSignals` reports a pending interrupt, and the readiness outcome
of this iteration's wait (if one happens). -/
structure HsStep where
  ret : Int
  err : SSLerr
  sig : Bool
  ready : Bool
deriving DecidableEq, Repr

/-- How the handshake `do {} while` loop was left. -/
inductive HsExit where
  | finished (ret : Int) (err : SSLerr)
  | signalAbort
  | timeoutAbort
  | closedAbort
  | tooLargeAbort
  | fuel
deriving DecidableEq, Repr

/-- Loop exit together with the number of iterations executed (each iteration
performs one `SSL_do_handshake` and one `SSL_get_error` engine call). -/
structure HsLoopOut where
  exit : HsExit
  iters : Nat
deriving DecidableEq, Repr

/-- Embedding of the handshake retry loop (_ssl.c lines 549-578).  `fuel`
means the oracle trace ran out while the loop would have continued. -/
def hsLoop (havePoll : Bool) (sock : Sock) : List HsStep → HsLoopOut
  | [] => ⟨.fuel, 0⟩
  | step :: rest =>
    if step.sig then ⟨.signalAbort, 1⟩
    else
      let sockstate :=
        if step.err = SSLerr.wantRead then
          check_socket_and_wait_for_timeout havePoll sock false step.ready
        else if step.err = SSLerr.wantWrite then
          check_socket_and_wait_for_timeout havePoll sock true step.ready
        else SockState.operationOk
      if sockstate = SockState.hasTimedOut then ⟨.timeoutAbort, 1⟩
      else if sockstate = SockState.hasBeenClosed then ⟨.closedAbort, 1⟩
      else if sockstate = SockState.tooLargeForSelect then ⟨.tooLargeAbort, 1⟩
      else if sockstate = SockState.isNonblocking then ⟨.finished step.ret step.err, 1⟩
      else if step.err = SSLerr.wantRead ∨ step.err = SSLerr.wantWrite then
        let o := hsLoop havePoll sock rest
        ⟨o.exit, o.iters + 1⟩
      else ⟨.finished step.ret step.err, 1⟩

/-- Outcome of a whole `PySSL_SSLdo_handshake` call. -/
inductive HsOutcome where
  | success
  | sslError (d : SetErrorResult)
  | signalErr
  | timeoutErr
  | closedErr
  | tooLargeErr
  | noSocket
  | fuel
deriving DecidableEq, Repr

/-- Result of `PySSL_SSLdo_handshake`: the outcome, the object state after the
call, and the number of engine (SSL_*) calls performed on the session. -/
structure HsResult where
  outcome : HsOutcome
  selfAfter : PySSLSocket
  engineCalls : Nat
deriving DecidableEq, Repr

/-- Embedding of `PySSL_SSLdo_handshake` (_ssl.c lines 527-595).  `fresh` is
the value `SSL_get_peer_certificate` would return on success, `e` the value of
`ERR_peek_last_error` seen by `PySSL_SetError`. -/
def PySSL_SSLdo_handshake (havePoll : Bool) (self : PySSLSocket)
    (steps : List HsStep) (fresh : Option Nat) (e : Nat) : HsResult :=
  match self.sockRef with
  | none => ⟨.noSocket, self, 0⟩
  | some sock =>
    let o := hsLoop havePoll sock steps
    -- 2 calls for SSL_get_rbio/SSL_get_wbio, 2 per loop iteration
    let base := 2 + 2 * o.iters
    match o.exit with
    | .fuel => ⟨.fuel, self, base⟩
    | .signalAbort => ⟨.signalErr, self, base⟩
    | .timeoutAbort => ⟨.timeoutErr, self, base⟩
    | .closedAbort => ⟨.closedErr, self, base⟩
    | .tooLargeAbort => ⟨.tooLargeErr, self, base⟩
    | .finished ret err =>
      if ret < 1 then
        ⟨.sslError (PySSL_SetError true false err ret e), self, base + 1⟩
      else
        ⟨.success, { self with peer_cert := fresh }, base + 1⟩

/-- One iteration's engine oracle for the read retry loop: the value returned
by `SSL_read`, the class from `SSL_get_error`, the value `SSL_get_shutdown`
would report, the pending-signal flag, and the wait readiness outcome. -/
structure RdStep where
  count : Int
  err : SSLerr
  sdState : Int
  sig : Bool
  ready : Bool
deriving DecidableEq, Repr

/-- OpenSSL's `SSL_RECEIVED_SHUTDOWN` flag value. -/
def SSL_RECEIVED_SHUTDOWN : Int := 2

/-- How the read retry loop was left. -/
inductive RdExit where
  | bytesDone (n : Int)
  | finished (count : Int) (err : SSLerr)
  | signalAbort
  | timeoutAbort
  | fuel
deriving DecidableEq, Repr

/-- Read loop exit with the number of iterations executed. -/
structure RdLoopOut where
  exit : RdExit
  iters : Nat
deriving DecidableEq, Repr

/-- Embedding of the read retry loop (_ssl.c lines 1557-1584).  A zero-return
classification whose shutdown state equals `SSL_RECEIVED_SHUTDOWN` jumps to
`done` with `count = 0` (`bytesDone 0`).  The loop handles only the timed-out
and nonblocking wait outcomes; closed/too-large fall through to the loop
condition, matching the source. -/
def rdLoop (havePoll : Bool) (sock : Sock) : List RdStep → RdLoopOut
  | [] => ⟨.fuel, 0⟩
  | step :: rest =>
    if step.sig then ⟨.signalAbort, 1⟩
    else if step.err = SSLerr.wantRead ∨ step.err = SSLerr.wantWrite then
      let sockstate :=
        check_socket_and_wait_for_timeout havePoll sock
          (step.err = SSLerr.wantWrite) step.ready
      if sockstate = SockState.hasTimedOut then ⟨.timeoutAbort, 1⟩
      else if sockstate = SockState.isNonblocking then
        ⟨.finished step.count step.err, 1⟩
      else
        let o := rdLoop havePoll sock rest
        ⟨o.exit, o.iters + 1⟩
    else if step.err = SSLerr.zeroReturn ∧ step.sdState = SSL_RECEIVED_SHUTDOWN then
      ⟨.bytesDone 0, 1⟩
    else ⟨.finished step.count step.err, 1⟩

/-- Outcome of a whole `PySSL_SSLread` call. -/
inductive RdOutcome where
  | bytes (n : Int)
  | sslError (d : SetErrorResult)
  | timeoutErr
  | tooLargeErr
  | signalErr
  | noSocket
  | fuel
deriving DecidableEq, Repr

/-- Result of `PySSL_SSLread`: outcome plus engine (SSL_*) call count. -/
structure RdResult where
  outcome : RdOutcome
  engineCalls : Nat
deriving DecidableEq, Repr

/-- The part of `PySSL_SSLread` from the retry loop down (after the pending
check and the optional pre-wait). -/
def rdMain (havePoll : Bool) (sock : Sock) (steps : List RdStep) (e : Nat) :
    RdResult :=
  let o := rdLoop havePoll sock steps
  -- 3 calls: SSL_get_rbio/SSL_get_wbio/SSL_pending, plus 2 per iteration
  let base := 3 + 2 * o.iters
  match o.exit with
  | .fuel => ⟨.fuel, base⟩
  | .signalAbort => ⟨.signalErr, base⟩
  | .timeoutAbort => ⟨.timeoutErr, base⟩
  | .bytesDone n => ⟨.bytes n, base⟩
  | .finished count err =>
    if count ≤ 0 then
      ⟨.sslError (PySSL_SetError true false err count e), base + 1⟩
    else ⟨.bytes count, base⟩

/-- Embedding of `PySSL_SSLread` (_ssl.c lines 1488-1608).  `pending` is the
value of `SSL_pending`; `preReady` the readiness oracle for the pre-loop wait
(performed only when no decrypted bytes are pending).  When that wait reports
the socket closed, the call returns zero bytes (`count = 0; goto done`). -/
def PySSL_SSLread (havePoll : Bool) (self : PySSLSocket) (pending : Int)
    (preReady : Bool) (steps : List RdStep) (e : Nat) : RdResult :=
  match self.sockRef with
  | none => ⟨.noSocket, 0⟩
  | some sock =>
    if pending = 0 then
      let sockstate := check_socket_and_wait_for_timeout havePoll sock false preReady
      if sockstate = SockState.hasTimedOut then ⟨.timeoutErr, 3⟩
      else if sockstate = SockState.tooLargeForSelect then ⟨.tooLargeErr, 3⟩
      else if sockstate = SockState.hasBeenClosed then ⟨.bytes 0, 3⟩
      else rdMain havePoll sock steps e
    else rdMain havePoll sock steps e

/-- One iteration's engine oracle for the write retry loop. -/
structure WrStep where
  wlen : Int
  err : SSLerr
  sig : Bool
  ready : Bool
deriving DecidableEq, Repr

/-- How the write retry loop was left. -/
inductive WrExit where
  | finished (wlen : Int) (err : SSLerr)
  | signalAbort
  | timeoutAbort
  | closedAbort
  | fuel
deriving DecidableEq, Repr

/-- Write loop exit with the number of iterations executed. -/
structure WrLoopOut where
  exit : WrExit
  iters : Nat
deriving DecidableEq, Repr

/-- Embedding of the write retry loop (_ssl.c lines 1422-1448): handles
timed-out, closed and nonblocking wait outcomes (no too-large branch inside
the loop, matching the source). -/
def wrLoop (havePoll : Bool) (sock : Sock) : List WrStep → WrLoopOut
  | [] => ⟨.fuel, 0⟩
  | step :: rest =>
    if step.sig then ⟨.signalAbort, 1⟩
    else
      let sockstate :=
        if step.err = SSLerr.wantRead then
          check_socket_and_wait_for_timeout havePoll sock false step.ready
        else if step.err = SSLerr.wantWrite then
          check_socket_and_wait_for_timeout havePoll sock true step.ready
        else SockState.operationOk
      if sockstate = SockState.hasTimedOut then ⟨.timeoutAbort, 1⟩
      else if sockstate = SockState.hasBeenClosed then ⟨.closedAbort, 1⟩
      else if sockstate = SockState.isNonblocking then ⟨.finished step.wlen step.err, 1⟩
      else if step.err = SSLerr.wantRead ∨ step.err = SSLerr.wantWrite then
        let o := wrLoop havePoll sock rest
        ⟨o.exit, o.iters + 1⟩
      else ⟨.finished step.wlen step.err, 1⟩

/-- Outcome of a whole `PySSL_SSLwrite` call. -/
inductive WrOutcome where
  | wrote (n : Int)
  | sslError (d : SetErrorResult)
  | overflowErr
  | timeoutErr
  | closedErr
  | tooLargeErr
  | signalErr
  | noSocket
  | fuel
deriving DecidableEq, Repr

/-- Result of `PySSL_SSLwrite`: outcome plus engine (SSL_*) call count. -/
structure WrResult where
  outcome : WrOutcome
  engineCalls : Nat
deriving DecidableEq, Repr

/-- C `INT_MAX` (32-bit int). -/
def INT_MAX : Int := 2147483647

/-- Embedding of `PySSL_SSLwrite` (_ssl.c lines 1375-1461).  `buflen` is the
length of the buffer to write; the overflow check happens before any engine
call; then one wait in the write direction precedes the retry loop. -/
def PySSL_SSLwrite (havePoll : Bool) (self : PySSLSocket) (buflen : Int)
    (preReady : Bool) (steps : List WrStep) (e : Nat) : WrResult :=
  match self.sockRef with
  | none => ⟨.noSocket, 0⟩
  | some sock =>
    if buflen > INT_MAX then ⟨.overflowErr, 0⟩
    else
      let sockstate := check_socket_and_wait_for_timeout havePoll sock true preReady
      if sockstate = SockState.hasTimedOut then ⟨.timeoutErr, 2⟩
      else if sockstate = SockState.hasBeenClosed then ⟨.closedErr, 2⟩
      else if sockstate = SockState.tooLargeForSelect then ⟨.tooLargeErr, 2⟩
      else
        let o := wrLoop havePoll sock steps
        let base := 2 + 2 * o.iters
        match o.exit with
        | .fuel => ⟨.fuel, base⟩
        | .signalAbort => ⟨.signalErr, base⟩
        | .timeoutAbort => ⟨.timeoutErr, base⟩
        | .closedAbort => ⟨.closedErr, base⟩
        | .finished wl err =>
          if wl > 0 then ⟨.wrote wl, base⟩
          else ⟨.sslError (PySSL_SetError true false err wl e), base + 1⟩

/-- One iteration's engine oracle for the shutdown loop: the value returned by
`SSL_shutdown`, the class `SSL_get_error` reports when that value is negative,
and the wait readiness outcome. -/
structure SdStep where
  ret : Int
  err : SSLerr
  ready : Bool
deriving DecidableEq, Repr

/-- Per-iteration record of the shutdown loop: whether this iteration executed
`SSL_set_read_ahead(self->ssl, 0)` at its start, and the `SSL_shutdown`
result it observed. -/
structure SdIter where
  readAheadOff : Bool
  ret : Int
deriving DecidableEq, Repr

/-- How the shutdown `while (1)` loop was left. -/
inductive SdExit where
  | broke (ret : Int) (err : SSLerr)
  | timeoutAbort (wantRead : Bool)
  | tooLargeAbort
  | fuel
deriving DecidableEq, Repr

/-- Shutdown loop output: exit, the per-iteration log, and the final value of
the `shutdown_seen_zero` flag. -/
structure SdLoopOut where
  exit : SdExit
  log : List SdIter
  seenZeroAfter : Bool
deriving DecidableEq, Repr

/-- Embedding of the shutdown loop (_ssl.c lines 1635-1688), threading the
`shutdown_seen_zero` flag and the local `zeros` counter.  A zero result
increments `zeros` and breaks once `zeros` exceeds 1; otherwise it sets the
flag and continues.  Negative results consult `SSL_get_error` and retry only
on want-read/want-write with an operation-ok wait. -/
def sdLoop (havePoll : Bool) (sock : Sock) (seenZero : Bool) (zeros : Nat) :
    List SdStep → SdLoopOut
  | [] => ⟨.fuel, [], seenZero⟩
  | step :: rest =>
    let it : SdIter := ⟨seenZero, step.ret⟩
    if step.ret > 0 then ⟨.broke step.ret step.err, [it], seenZero⟩
    else if step.ret = 0 then
      if zeros + 1 > 1 then ⟨.broke 0 step.err, [it], seenZero⟩
      else
        let o := sdLoop havePoll sock true (zeros + 1) rest
        ⟨o.exit, it :: o.log, o.seenZeroAfter⟩
    else
      if step.err = SSLerr.wantRead ∨ step.err = SSLerr.wantWrite then
        let sockstate :=
          check_socket_and_wait_for_timeout havePoll sock
            (step.err = SSLerr.wantWrite) step.ready
        if sockstate = SockState.hasTimedOut then
          ⟨.timeoutAbort (step.err = SSLerr.wantRead), [it], seenZero⟩
        else if sockstate = SockState.tooLargeForSelect then
          ⟨.tooLargeAbort, [it], seenZero⟩
        else if sockstate ≠ SockState.operationOk then
          ⟨.broke step.ret step.err, [it], seenZero⟩
        else
          let o := sdLoop havePoll sock seenZero zeros rest
          ⟨o.exit, it :: o.log, o.seenZeroAfter⟩
      else ⟨.broke step.ret step.err, [it], seenZero⟩

/-- Outcome of a whole `PySSL_SSLshutdown` call. -/
inductive SdOutcome where
  | sockReturned
  | sslError (d : SetErrorResult)
  | timeoutErr (wantRead : Bool)
  | tooLargeErr
  | noSocket
  | fuel
deriving DecidableEq, Repr

/-- Result of `PySSL_SSLshutdown`: outcome, the loop's per-iteration log, the
object state after the call, and the engine (SSL_*) call count (zero exactly
when the socket guard fired before any engine use). -/
structure SdResult where
  outcome : SdOutcome
  log : List SdIter
  selfAfter : PySSLSocket
  engineCalls : Nat
deriving DecidableEq, Repr

/-- Engine calls performed by one shutdown iteration as recorded in the log
(read-ahead disable when flagged, the `SSL_shutdown` itself, and
`SSL_get_error` for negative results). -/
def sdIterCalls (it : SdIter) : Nat :=
  (if it.readAheadOff then 1 else 0) + 1 + (if it.ret < 0 then 1 else 0)

/-- Embedding of `PySSL_SSLshutdown` (_ssl.c lines 1615-1701).  The guard
fails with the no-socket error when the weak reference is dead or the
descriptor already closed, before any engine call. -/
def PySSL_SSLshutdown (havePoll : Bool) (self : PySSLSocket)
    (steps : List SdStep) (e : Nat) : SdResult :=
  match self.sockRef with
  | none => ⟨.noSocket, [], self, 0⟩
  | some sock =>
    if sock.fd < 0 then ⟨.noSocket, [], self, 0⟩
    else
      let o := sdLoop havePoll sock self.shutdown_seen_zero 0 steps
      let selfAfter := { self with shutdown_seen_zero := o.seenZeroAfter }
      let base := 2 + (o.log.map sdIterCalls).sum
      match o.exit with
      | .fuel => ⟨.fuel, o.log, selfAfter, base⟩
      | .timeoutAbort wr => ⟨.timeoutErr wr, o.log, selfAfter, base⟩
      | .tooLargeAbort => ⟨.tooLargeErr, o.log, selfAfter, base⟩
      | .broke ret err =>
        if ret < 0 then
          ⟨.sslError (PySSL_SetError true false err ret e), o.log, selfAfter, base + 1⟩
        else ⟨.sockReturned, o.log, selfAfter, base⟩

/-- One `X509_NAME_ENTRY`: its RDN set index (`entry->set`; nonnegative for
every name OpenSSL produces) and an abstract handle for the decoded
attribute-type/value pair. -/
structure NameEntry where
  set : Nat
  attr : Nat
deriving DecidableEq, Repr

/-- The entry-walking loop of `_create_tuple_for_X509_NAME` (_ssl.c lines
666-725), threading `rdn_level` (initially -1), the current `rdn` list and
the accumulated `dn`.  On reaching the end, a dangling non-empty `rdn` is
flushed. -/
def x509NameLoop : List NameEntry → Int → List Nat → List (List Nat) →
    List (List Nat)
  | [], _, rdn, dn => if rdn.length > 0 then dn ++ [rdn] else dn
  | entry :: rest, rdn_level, rdn, dn =>
    if 0 ≤ rdn_level ∧ rdn_level ≠ (entry.set : Int) then
      x509NameLoop rest (entry.set : Int) [entry.attr] (dn ++ [rdn])
    else
      x509NameLoop rest (entry.set : Int) (rdn ++ [entry.attr]) dn

/-- Embedding of `_create_tuple_for_X509_NAME` (_ssl.c lines 643-740):
the decoded distinguished name as a list of RDN groups. -/
def create_tuple_for_X509_NAME (entries : List NameEntry) : List (List Nat) :=
  x509NameLoop entries (-1) [] []

/-- Modelled from the spec: group each maximal run of consecutive entries
sharing the same RDN-set identifier into one relative-distinguished-name
group, in original entry order (helper carrying the current run's set id and
collected attributes). -/
def rdnRuns : List NameEntry → Nat → List Nat → List (List Nat)
  | [], _, cur => [cur]
  | e :: rest, s, cur =>
    if e.set = s then rdnRuns rest s (cur ++ [e.attr])
    else cur :: rdnRuns rest e.set [e.attr]

/-- Modelled from the spec: the grouping of a name's entries into
relative-distinguished-name groups by maximal runs of equal set identifier. -/
def rdnGroupsSpec : List NameEntry → List (List Nat)
  | [] => []
  | e :: rest => rdnRuns rest e.set [e.attr]

/-- Possible results of the server-name-indication callback invocation, as
seen by `_servername_callback` after calling the registered hook:
the call raised (`result == NULL`), returned `None`, returned an integer, or
returned some other object (one on which `PyLong_AsLong` fails). -/
inductive CbResult where
  | raised
  | noneVal
  | intVal (n : Int)
  | otherVal
deriving DecidableEq, Repr

/-- Return value of the OpenSSL servername callback trampoline together with
the alert code written through `*al` when fatal. -/
inductive SNIRet where
  | ok
  | alertFatal (al : Int)
deriving DecidableEq, Repr

/-- OpenSSL alert code `SSL_AD_HANDSHAKE_FAILURE`. -/
def SSL_AD_HANDSHAKE_FAILURE : Int := 40

/-- OpenSSL alert code `SSL_AD_INTERNAL_ERROR`. -/
def SSL_AD_INTERNAL_ERROR : Int := 80

/-- Embedding of `_servername_callback` (_ssl.c lines 2490-2579), reduced to
its decision structure: no registered hook returns OK immediately; a dead
socket weak reference takes the error path (internal-error fatal alert);
otherwise the registered hook's result decides: `None` continues, an integer
aborts with that alert code, any other value (for which `PyLong_AsLong`
raises) aborts with the internal-error alert, and a raised exception aborts
with the handshake-failure alert. -/
def servername_callback (hasCallback socketAlive : Bool) (res : CbResult) :
    SNIRet :=
  if ¬hasCallback then .ok
  else if ¬socketAlive then .alertFatal SSL_AD_INTERNAL_ERROR
  else
    match res with
    | .raised => .alertFatal SSL_AD_HANDSHAKE_FAILURE
    | .noneVal => .ok
    | .intVal n => .alertFatal n
    | .otherVal => .alertFatal SSL_AD_INTERNAL_ERROR

/-- Width mask for a C `long` as used by the options bitset (64-bit). -/
def LONG_MASK : Nat := 2 ^ 64 - 1

/-- Bitwise complement within the C `long` width. -/
def lnot (x : Nat) : Nat := x ^^^ LONG_MASK

/-- A mutation applied to the engine context's option bits. -/
inductive EngineOp where
  | clearOpts (bits : Nat)
  | setOpts (bits : Nat)
deriving DecidableEq, Repr

/-- Embedding of `set_options` (_ssl.c lines 2062-2083).  `opts` is
`SSL_CTX_get_options`, `new_opts` the requested bitmask, `hasClearOptions`
the `HAVE_SSL_CTX_CLEAR_OPTIONS` compile flag.  Returns `none` on the
ValueError path (bits to clear but no clear support), otherwise the resulting
option bits together with the engine mutations performed. -/
def set_options (opts new_opts : Nat) (hasClearOptions : Bool) :
    Option (Nat × List EngineOp) :=
  let clear := opts &&& lnot new_opts
  let set := lnot opts &&& new_opts
  if clear ≠ 0 then
    if hasClearOptions then
      let opts1 := opts &&& lnot clear
      if set ≠ 0 then some (opts1 ||| set, [.clearOpts clear, .setOpts set])
      else some (opts1, [.clearOpts clear])
    else none
  else if set ≠ 0 then some (opts ||| set, [.setOpts set])
  else some (opts, [])

/-- Number of shutdown-loop iterations that observed a zero `SSL_shutdown`
result (the "send-then-zero" rounds). -/
def zeroRounds (log : List SdIter) : Nat :=
  (log.filter (fun it => it.ret = 0)).length

/-- Read-ahead discipline of the shutdown loop: every iteration strictly after
one that observed a zero result ran with read-ahead buffering disabled. -/
def readAheadAfterZero (log : List SdIter) : Prop :=
  ∀ j, j < log.length →
    (∃ i, i < j ∧ (log.getD i ⟨false, 1⟩).ret = 0) →
    (log.getD j ⟨false, 1⟩).readAheadOff = true

/-- OpenSSL's `SSL_VERIFY_PEER` bit. -/
def SSL_VERIFY_PEER : Nat := 1

/-- Result of `PySSL_peercert`. -/
inductive PeerCertResult where
  | noneResult
  | derBytes (c : Nat)
  | emptyDict
  | decoded (c : Nat)
deriving DecidableEq, Repr

/-- Embedding of `PySSL_peercert` (_ssl.c lines 1142-1164): no cached peer
certificate yields `None`; binary mode yields the DER encoding; otherwise the
context's verify mode decides between an empty dict and the decoded
certificate. -/
def PySSL_peercert (peer_cert : Option Nat) (binary_mode : Bool)
    (verification : Nat) : PeerCertResult :=
  match peer_cert with
  | none => .noneResult
  | some c =>
    if binary_mode then .derBytes c
    else if verification &&& SSL_VERIFY_PEER = 0 then .emptyDict
    else .decoded c

/-! Theorems. -/

/-- C9: the peer-certificate query returns the distinguished none value when
no peer certificate is cached; when a certificate is cached and binary (DER)
mode is not requested, the query returns an empty dictionary — not the decoded
certificate contents — whenever the context's verify mode does not include the
peer-verification bit. -/
theorem C9_peercert (binary_mode : Bool) (verification : Nat) (c : Nat)
    (hv : verification &&& SSL_VERIFY_PEER = 0) :
    PySSL_peercert none binary_mode verification = PeerCertResult.noneResult ∧
    PySSL_peercert (some c) false verification = PeerCertResult.emptyDict := by
  refine ⟨rfl, ?_⟩
  simp [PySSL_peercert, hv]

/-- Witness for C9: verify mode 0 (no peer verification), certificate handle 5. -/
theorem C9_peercert_witness :
    (0 &&& SSL_VERIFY_PEER = 0) ∧
    (PySSL_peercert none true 0 = PeerCertResult.noneResult ∧
     PySSL_peercert (some 5) false 0 = PeerCertResult.emptyDict) :=
  ⟨by decide, C9_peercert true 0 5 (by decide)⟩

/-- C7 counterexample: with a registered callback and a live socket, a
non-None return value that is not an integer is not treated as success — the
trampoline aborts the handshake fatally with the internal-error alert. -/
theorem C7_counterexample :
    servername_callback true true CbResult.otherVal ≠ SNIRet.ok ∧
    servername_callback true true CbResult.otherVal =
      SNIRet.alertFatal SSL_AD_INTERNAL_ERROR := by
  decide

/-- C7 (amended): an integer return value from the servername callback aborts
the handshake with that value as the alert code; a None return value lets the
handshake continue; any other non-None return value aborts fatally with the
internal-error alert, and a raised exception aborts fatally with the
handshake-failure alert. -/
theorem C7_servername_callback (n : Int) :
    servername_callback true true (CbResult.intVal n) = SNIRet.alertFatal n ∧
    servername_callback true true CbResult.noneVal = SNIRet.ok ∧
    servername_callback true true CbResult.otherVal =
      SNIRet.alertFatal SSL_AD_INTERNAL_ERROR ∧
    servername_callback true true CbResult.raised =
      SNIRet.alertFatal SSL_AD_HANDSHAKE_FAILURE :=
  ⟨rfl, rfl, rfl, rfl⟩

/-- C3: on a channel whose socket weak reference is already dead, handshake,
read, write and shutdown each fail immediately with the no-socket error and
perform zero engine calls, for every oracle trace and argument. -/
theorem C3_no_socket (havePoll : Bool) (pc : Option Nat) (sz : Bool)
    (steps : List HsStep) (fresh : Option Nat) (e : Nat) (pending : Int)
    (preReady : Bool) (rsteps : List RdStep) (buflen : Int)
    (wsteps : List WrStep) (ssteps : List SdStep) :
    PySSL_SSLdo_handshake havePoll ⟨none, pc, sz⟩ steps fresh e =
      ⟨HsOutcome.noSocket, ⟨none, pc, sz⟩, 0⟩ ∧
    PySSL_SSLread havePoll ⟨none, pc, sz⟩ pending preReady rsteps e =
      ⟨RdOutcome.noSocket, 0⟩ ∧
    PySSL_SSLwrite havePoll ⟨none, pc, sz⟩ buflen preReady wsteps e =
      ⟨WrOutcome.noSocket, 0⟩ ∧
    PySSL_SSLshutdown havePoll ⟨none, pc, sz⟩ ssteps e =
      ⟨SdOutcome.noSocket, [], ⟨none, pc, sz⟩, 0⟩ :=
  ⟨rfl, rfl, rfl, rfl⟩

/-- C6: for the syscall error class with no queued low-level error code
(`e = 0`): a return value of exactly 0, or a dead socket weak reference,
reclassifies the error as EOF (typed EOF error, no delegation, queue
cleared); a return value of -1 with the socket alive delegates to the
socket's own transport-level error handler, raising no SSL-layer error
object, with the engine error queue cleared — so no second error is
reported. -/
theorem C6_syscall_classification (sockGone : Bool) (ret : Int) (e : Nat)
    (he : e = 0) :
    ((ret = 0 ∨ sockGone = true) →
      PySSL_SetError true sockGone SSLerr.syscall ret e =
        ⟨some ⟨PyErr.eof, ExcType.eofError,
          some "EOF occurred in violation of protocol"⟩, false, true⟩) ∧
    (ret = -1 → sockGone = false →
      PySSL_SetError true sockGone SSLerr.syscall ret e =
        ⟨none, true, true⟩) := by
  subst he
  constructor
  · rintro (h | h) <;> simp [PySSL_SetError, h]
  · rintro rfl rfl
    decide

/-- Witness for C6: both branches evaluated at concrete inputs (live socket,
returns 0 and -1, empty error queue). -/
theorem C6_syscall_witness :
    PySSL_SetError true false SSLerr.syscall 0 0 =
      ⟨some ⟨PyErr.eof, ExcType.eofError,
        some "EOF occurred in violation of protocol"⟩, false, true⟩ ∧
    PySSL_SetError true false SSLerr.syscall (-1) 0 = ⟨none, true, true⟩ :=
  ⟨(C6_syscall_classification false 0 0 rfl).1 (Or.inl rfl),
   (C6_syscall_classification false (-1) 0 rfl).2 rfl rfl⟩

/-- Helper for C5: once at least one attribute has been collected (so
`rdn_level` holds the previous entry's nonnegative set index), the decoder
loop produces the accumulated groups followed by the run grouping of the
remaining entries. -/
theorem x509NameLoop_eq_runs (rest : List NameEntry) :
    ∀ (s : Nat) (cur : List Nat) (dn : List (List Nat)), cur ≠ [] →
      x509NameLoop rest (s : Int) cur dn = dn ++ rdnRuns rest s cur := by
  induction rest with
  | nil =>
    intro s cur dn hcur
    simp [x509NameLoop, rdnRuns, List.length_pos, hcur]
  | cons e rest ih =>
    intro s cur dn hcur
    by_cases hs : e.set = s
    · have hcond : ¬(0 ≤ (s : Int) ∧ (s : Int) ≠ (e.set : Int)) := by
        simp [hs]
      rw [x509NameLoop, if_neg hcond, rdnRuns, if_pos hs, hs]
      exact ih s (cur ++ [e.attr]) dn (by simp)
    · have hcond : 0 ≤ (s : Int) ∧ (s : Int) ≠ (e.set : Int) := by
        constructor
        · exact Int.natCast_nonneg s
        · intro hh
          exact hs (by exact_mod_cast hh.symm)
      rw [x509NameLoop, if_pos hcond, rdnRuns, if_neg hs]
      rw [ih e.set [e.attr] (dn ++ [cur]) (by simp)]
      simp

/-- C5: for every X.509 name, the decoder produces one
relative-distinguished-name group per maximal run of consecutive entries
sharing the same RDN-set identifier, in original entry order: a new group
starts exactly when the set identifier differs from the previous entry's, and
a trailing non-empty group is appended at the end, with no groups merged or
split — i.e. the decoded grouping equals the spec's run grouping. -/
theorem C5_x509_name_grouping (entries : List NameEntry) :
    create_tuple_for_X509_NAME entries = rdnGroupsSpec entries := by
  cases entries with
  | nil => rfl
  | cons e rest =>
    have hcond : ¬(0 ≤ (-1 : Int) ∧ (-1 : Int) ≠ (e.set : Int)) := by
      intro h
      omega
    show x509NameLoop (e :: rest) (-1) [] [] = rdnRuns rest e.set [e.attr]
    rw [x509NameLoop, if_neg hcond]
    simpa using x509NameLoop_eq_runs rest e.set [e.attr] [] (by simp)

/-- Helper: bits at or above the long width are clear in any value below
2^64. -/
theorem testBit_high {x : Nat} (hx : x < 2 ^ 64) {i : Nat} (hi : 64 ≤ i) :
    x.testBit i = false :=
  Nat.testBit_lt_two_pow
    (lt_of_lt_of_le hx (Nat.pow_le_pow_right (by norm_num) hi))

/-- Helper: a value below 2^64 shares no bits with its long-width
complement. -/
theorem land_lnot_self {x : Nat} (hx : x < 2 ^ 64) : x &&& lnot x = 0 := by
  apply Nat.eq_of_testBit_eq
  intro i
  rcases Nat.lt_or_ge i 64 with hi | hi
  · have d : decide (i < 64) = true := by simp [hi]
    simp only [lnot, LONG_MASK, Nat.testBit_and, Nat.testBit_xor,
      Nat.testBit_two_pow_sub_one, Nat.zero_testBit, d]
    cases ho : x.testBit i <;> rfl
  · simp [testBit_high hx hi]

/-- Helper: masking a value below 2^64 with the full long mask is the
identity. -/
theorem land_mask_self {x : Nat} (hx : x < 2 ^ 64) : x &&& LONG_MASK = x := by
  apply Nat.eq_of_testBit_eq
  intro i
  rcases Nat.lt_or_ge i 64 with hi | hi
  · have d : decide (i < 64) = true := by simp [hi]
    simp only [LONG_MASK, Nat.testBit_and, Nat.testBit_two_pow_sub_one, d]
    cases ho : x.testBit i <;> rfl
  · simp [testBit_high hx hi]

/-- Helper: the long-width complement of zero is the full mask. -/
theorem lnot_zero : lnot 0 = LONG_MASK := by
  simp [lnot]

/-- Helper: clearing the computed clear-delta and then or-ing the computed
set-delta turns the current options into exactly the requested bitmask. -/
theorem set_options_result_eq (opts new_opts : Nat) (h1 : opts < 2 ^ 64)
    (h2 : new_opts < 2 ^ 64) :
    (opts &&& lnot (opts &&& lnot new_opts)) ||| (lnot opts &&& new_opts) =
      new_opts := by
  apply Nat.eq_of_testBit_eq
  intro i
  rcases Nat.lt_or_ge i 64 with hi | hi
  · have d : decide (i < 64) = true := by simp [hi]
    simp only [lnot, LONG_MASK, Nat.testBit_or, Nat.testBit_and,
      Nat.testBit_xor, Nat.testBit_two_pow_sub_one, d]
    cases ho : opts.testBit i <;> cases hn : new_opts.testBit i <;> rfl
  · simp [testBit_high h1 hi, testBit_high h2 hi]

/-- Helper: the clear and set deltas together are the symmetric difference of
the old and requested option bits. -/
theorem set_options_delta_xor (opts new_opts : Nat) (h1 : opts < 2 ^ 64)
    (h2 : new_opts < 2 ^ 64) :
    (opts &&& lnot new_opts) ||| (lnot opts &&& new_opts) =
      opts ^^^ new_opts := by
  apply Nat.eq_of_testBit_eq
  intro i
  rcases Nat.lt_or_ge i 64 with hi | hi
  · have d : decide (i < 64) = true := by simp [hi]
    simp only [lnot, LONG_MASK, Nat.testBit_or, Nat.testBit_and,
      Nat.testBit_xor, Nat.testBit_two_pow_sub_one, d]
    cases ho : opts.testBit i <;> cases hn : new_opts.testBit i <;> rfl
  · simp [testBit_high h1 hi, testBit_high h2 hi]

/-- Helper: the clear and set deltas are disjoint. -/
theorem set_options_delta_disjoint (opts new_opts : Nat) (h1 : opts < 2 ^ 64)
    (h2 : new_opts < 2 ^ 64) :
    (opts &&& lnot new_opts) &&& (lnot opts &&& new_opts) = 0 := by
  apply Nat.eq_of_testBit_eq
  intro i
  rcases Nat.lt_or_ge i 64 with hi | hi
  · have d : decide (i < 64) = true := by simp [hi]
    simp only [lnot, LONG_MASK, Nat.testBit_and, Nat.testBit_xor,
      Nat.testBit_two_pow_sub_one, Nat.zero_testBit, d]
    cases ho : opts.testBit i <;> cases hn : new_opts.testBit i <;> rfl
  · simp [testBit_high h1 hi, testBit_high h2 hi]

/-- Helper: requesting the bitmask already held performs no engine
mutation. -/
theorem set_options_self {x : Nat} (hx : x < 2 ^ 64) (hc : Bool) :
    set_options x x hc = some (x, []) := by
  have ha : x &&& lnot x = 0 := land_lnot_self hx
  have hb : lnot x &&& x = 0 := by rw [Nat.land_comm]; exact land_lnot_self hx
  simp [set_options, ha, hb]

/-- C8: the options setter applies exactly the symmetric difference with the
current options — the engine mutations are precisely a clear of the bits
present only in the old value followed by a set of the bits present only in
the new value (each skipped when empty, the two disjoint, together the
symmetric difference), and the stored options become exactly the requested
bitmask, touching no other bits; setting the options to the value they
already hold performs no engine mutation, so a second call with the same
bitmask is a no-op. -/
theorem C8_set_options (opts new_opts : Nat) (h1 : opts < 2 ^ 64)
    (h2 : new_opts < 2 ^ 64) :
    set_options opts new_opts true =
      some (new_opts,
        (if opts &&& lnot new_opts ≠ 0 then
            [EngineOp.clearOpts (opts &&& lnot new_opts)] else []) ++
        (if lnot opts &&& new_opts ≠ 0 then
            [EngineOp.setOpts (lnot opts &&& new_opts)] else [])) ∧
    (opts &&& lnot new_opts) ||| (lnot opts &&& new_opts) =
      opts ^^^ new_opts ∧
    (opts &&& lnot new_opts) &&& (lnot opts &&& new_opts) = 0 ∧
    set_options opts opts true = some (opts, []) ∧
    set_options new_opts new_opts true = some (new_opts, []) := by
  refine ⟨?_, set_options_delta_xor opts new_opts h1 h2,
    set_options_delta_disjoint opts new_opts h1 h2,
    set_options_self h1 true, set_options_self h2 true⟩
  have hres := set_options_result_eq opts new_opts h1 h2
  by_cases hc : opts &&& lnot new_opts = 0 <;>
    by_cases hs : lnot opts &&& new_opts = 0
  · rw [hc, lnot_zero, land_mask_self h1, hs, Nat.or_zero] at hres
    subst hres
    simp [set_options, hc, hs]
  · rw [hc, lnot_zero, land_mask_self h1] at hres
    simp [set_options, hc, hs, hres]
  · rw [hs, Nat.or_zero] at hres
    simp [set_options, hc, hs, hres]
  · simp [set_options, hc, hs, hres]

/-- Witness for C8 at current options 5 and requested options 3 (clear delta
4, set delta 2). -/
theorem C8_set_options_witness :
    (5 : Nat) < 2 ^ 64 ∧ (3 : Nat) < 2 ^ 64 ∧
    (set_options 5 3 true =
      some (3,
        (if (5 : Nat) &&& lnot 3 ≠ 0 then
            [EngineOp.clearOpts ((5 : Nat) &&& lnot 3)] else []) ++
        (if lnot 5 &&& (3 : Nat) ≠ 0 then
            [EngineOp.setOpts (lnot 5 &&& (3 : Nat))] else [])) ∧
    ((5 : Nat) &&& lnot 3) ||| (lnot 5 &&& (3 : Nat)) = (5 : Nat) ^^^ 3 ∧
    ((5 : Nat) &&& lnot 3) &&& (lnot 5 &&& (3 : Nat)) = 0 ∧
    set_options 5 5 true = some (5, []) ∧
    set_options 3 3 true = some (3, [])) :=
  ⟨by norm_num, by norm_num, C8_set_options 5 3 (by norm_num) (by norm_num)⟩

/-- Helper: when the handshake loop exits normally, the final return value
and error class come from one of the oracle steps it consumed. -/
theorem hsLoop_finished_mem (havePoll : Bool) (sock : Sock) :
    ∀ (steps : List HsStep) (ret : Int) (err : SSLerr),
      (hsLoop havePoll sock steps).exit = HsExit.finished ret err →
      ∃ s ∈ steps, s.ret = ret ∧ s.err = err := by
  intro steps
  induction steps with
  | nil => intro ret err h; simp [hsLoop] at h
  | cons step rest ih =>
    intro ret err h
    simp only [hsLoop] at h
    split_ifs at h <;>
      first
      | exact HsExit.noConfusion h
      | (have h' : HsExit.finished step.ret step.err = HsExit.finished ret err := h
         injection h' with ha hb
         exact ⟨step, List.mem_cons_self step rest, ha, hb⟩)
      | (have h' : (hsLoop havePoll sock rest).exit = HsExit.finished ret err := h
         obtain ⟨s, hs, hint⟩ := ih ret err h'
         exact ⟨s, List.mem_cons_of_mem step hs, hint⟩)

/-- Helper: `PySSL_SetError` on a zero return value always raises a typed
error object (never the delegate-to-errorhandler path). -/
theorem setError_ret_zero_raised (err : SSLerr) (e : Nat) :
    ((PySSL_SetError true false err 0 e).raised).isSome = true := by
  cases err <;> simp [PySSL_SetError] <;> split_ifs <;> simp

/-- C1: the handshake retry loop terminates successfully — returning the
non-error result and caching the freshly retrieved peer certificate — if and
only if the engine reports the no-further-error class and the numeric
handshake result is at least 1 (given `SSL_get_error`'s contract that the
no-further-error class is reported exactly for positive return values); a
handshake result of exactly 0 is a failure and produces a typed error. -/
theorem C1_handshake_success_iff (havePoll : Bool) (self : PySSLSocket)
    (sock : Sock) (steps : List HsStep) (fresh : Option Nat) (e : Nat)
    (hsock : self.sockRef = some sock)
    (hcons : ∀ s ∈ steps, (s.err = SSLerr.ok ↔ 1 ≤ s.ret)) :
    ((PySSL_SSLdo_handshake havePoll self steps fresh e).outcome =
        HsOutcome.success ↔
      (∃ ret, (hsLoop havePoll sock steps).exit = HsExit.finished ret SSLerr.ok ∧
        1 ≤ ret)) ∧
    ((PySSL_SSLdo_handshake havePoll self steps fresh e).outcome =
        HsOutcome.success →
      (PySSL_SSLdo_handshake havePoll self steps fresh e).selfAfter.peer_cert =
        fresh) ∧
    (∀ err, (hsLoop havePoll sock steps).exit = HsExit.finished 0 err →
      ∃ d, (PySSL_SSLdo_handshake havePoll self steps fresh e).outcome =
          HsOutcome.sslError d ∧ d.raised.isSome = true) := by
  obtain ⟨sr, pc, sz⟩ := self
  simp only [PySSLSocket.sockRef] at hsock
  subst hsock
  simp only [PySSL_SSLdo_handshake]
  rcases hexit : (hsLoop havePoll sock steps).exit with ⟨ret, err⟩ | _ | _ | _ | _ | _ <;>
    simp only [hexit]
  · -- normal loop exit with (ret, err)
    obtain ⟨s, hmem, hret, herr⟩ := hsLoop_finished_mem havePoll sock steps ret err hexit
    by_cases hlt : ret < 1
    · simp only [if_pos hlt]
      refine ⟨⟨fun h => by simp at h, ?_⟩, fun h => by simp at h, ?_⟩
      · rintro ⟨r, hr, hge⟩
        exfalso
        injection hr with ha hb
        omega
      · intro err2 h2
        injection h2 with ha hb
        subst ha
        exact ⟨PySSL_SetError true false err 0 e, by simp,
          setError_ret_zero_raised err e⟩
    · have hok : err = SSLerr.ok := by
        have hh := hcons s hmem
        rw [hret, herr] at hh
        exact hh.mpr (by omega)
      subst hok
      simp only [if_neg hlt]
      refine ⟨⟨fun _ => ⟨ret, rfl, by omega⟩, fun _ => by simp⟩,
        fun _ => by simp, ?_⟩
      intro err2 h2
      exfalso
      injection h2 with ha hb
      omega
  · refine ⟨by simp, by simp, ?_⟩
    intro err2 h2; simp at h2
  · refine ⟨by simp, by simp, ?_⟩
    intro err2 h2; simp at h2
  · refine ⟨by simp, by simp, ?_⟩
    intro err2 h2; simp at h2
  · refine ⟨by simp, by simp, ?_⟩
    intro err2 h2; simp at h2
  · refine ⟨by simp, by simp, ?_⟩
    intro err2 h2; simp at h2

/-- Witness for C1: one handshake step returning 1 with no further error on a
blocking socket succeeds and caches the fresh certificate. -/
theorem C1_handshake_witness :
    ((⟨some ⟨5, -1, true⟩, none, false⟩ : PySSLSocket).sockRef =
      some ⟨5, -1, true⟩) ∧
    (∀ s ∈ [(⟨1, SSLerr.ok, false, true⟩ : HsStep)],
      (s.err = SSLerr.ok ↔ 1 ≤ s.ret)) ∧
    (((PySSL_SSLdo_handshake true ⟨some ⟨5, -1, true⟩, none, false⟩
        [⟨1, SSLerr.ok, false, true⟩] (some 7) 0).outcome = HsOutcome.success ↔
      (∃ ret, (hsLoop true ⟨5, -1, true⟩ [⟨1, SSLerr.ok, false, true⟩]).exit =
          HsExit.finished ret SSLerr.ok ∧ 1 ≤ ret)) ∧
     ((PySSL_SSLdo_handshake true ⟨some ⟨5, -1, true⟩, none, false⟩
        [⟨1, SSLerr.ok, false, true⟩] (some 7) 0).outcome = HsOutcome.success →
      (PySSL_SSLdo_handshake true ⟨some ⟨5, -1, true⟩, none, false⟩
        [⟨1, SSLerr.ok, false, true⟩] (some 7) 0).selfAfter.peer_cert = some 7) ∧
     (∀ err, (hsLoop true ⟨5, -1, true⟩ [⟨1, SSLerr.ok, false, true⟩]).exit =
        HsExit.finished 0 err →
      ∃ d, (PySSL_SSLdo_handshake true ⟨some ⟨5, -1, true⟩, none, false⟩
          [⟨1, SSLerr.ok, false, true⟩] (some 7) 0).outcome =
        HsOutcome.sslError d ∧ d.raised.isSome = true)) :=
  ⟨rfl, by decide,
   C1_handshake_success_iff true ⟨some ⟨5, -1, true⟩, none, false⟩ ⟨5, -1, true⟩
     [⟨1, SSLerr.ok, false, true⟩] (some 7) 0 rfl (by decide)⟩

/-- C4: a read iteration whose result the engine classifies as zero-return
while the engine's shutdown state equals "received shutdown" makes the read
return zero bytes as a graceful EOF rather than raising an error — both at
the loop level (for any continuation trace) and for a whole read call whose
first loop iteration is such a step (decrypted bytes pending, so no pre-loop
wait occurs). -/
theorem C4_read_graceful_eof (havePoll : Bool) (self : PySSLSocket)
    (sock : Sock) (pending : Int) (preReady : Bool) (step : RdStep)
    (rest : List RdStep) (e : Nat)
    (hsock : self.sockRef = some sock) (hpend : pending ≠ 0)
    (hsig : step.sig = false) (herr : step.err = SSLerr.zeroReturn)
    (hsd : step.sdState = SSL_RECEIVED_SHUTDOWN) :
    (rdLoop havePoll sock (step :: rest)).exit = RdExit.bytesDone 0 ∧
    (PySSL_SSLread havePoll self pending preReady (step :: rest) e).outcome =
      RdOutcome.bytes 0 := by
  have hloop : (rdLoop havePoll sock (step :: rest)).exit = RdExit.bytesDone 0 := by
    simp [rdLoop, hsig, herr, hsd]
  refine ⟨hloop, ?_⟩
  obtain ⟨sr, pc, sz⟩ := self
  simp only [PySSLSocket.sockRef] at hsock
  subst hsock
  simp only [PySSL_SSLread, if_neg hpend, rdMain]
  rw [hloop]

/-- Witness for C4: a zero-return step with shutdown state 2 on a blocking
socket with one pending byte returns zero bytes. -/
theorem C4_read_graceful_eof_witness :
    ((⟨some ⟨5, -1, true⟩, none, false⟩ : PySSLSocket).sockRef =
      some ⟨5, -1, true⟩) ∧
    (1 : Int) ≠ 0 ∧
    (⟨0, SSLerr.zeroReturn, 2, false, true⟩ : RdStep).sig = false ∧
    (⟨0, SSLerr.zeroReturn, 2, false, true⟩ : RdStep).err = SSLerr.zeroReturn ∧
    (⟨0, SSLerr.zeroReturn, 2, false, true⟩ : RdStep).sdState =
      SSL_RECEIVED_SHUTDOWN ∧
    ((rdLoop true ⟨5, -1, true⟩ [⟨0, SSLerr.zeroReturn, 2, false, true⟩]).exit =
        RdExit.bytesDone 0 ∧
     (PySSL_SSLread true ⟨some ⟨5, -1, true⟩, none, false⟩ 1 true
        [⟨0, SSLerr.zeroReturn, 2, false, true⟩] 0).outcome =
       RdOutcome.bytes 0) :=
  ⟨rfl, by decide, rfl, rfl, by decide,
   C4_read_graceful_eof true ⟨some ⟨5, -1, true⟩, none, false⟩ ⟨5, -1, true⟩ 1
     true ⟨0, SSLerr.zeroReturn, 2, false, true⟩ [] 0 rfl (by decide) rfl rfl
     (by decide)⟩

/-- Helper: in timeout mode (positive timeout) with an already-closed
descriptor, the readiness wait reports the socket closed, whatever the
direction or poll availability. -/
theorem check_closed (havePoll : Bool) (s : Sock) (w r : Bool)
    (ht : 0 < s.timeout) (hfd : s.fd < 0) :
    check_socket_and_wait_for_timeout havePoll s w r =
      SockState.hasBeenClosed := by
  rw [check_socket_and_wait_for_timeout, if_neg (by omega), if_neg (by omega),
    if_pos hfd]

/-- C10: on a socket in timeout mode whose descriptor is already closed, a
read with no decrypted bytes pending returns zero bytes (an empty result)
instead of failing, while a write (within the overflow bound) and a handshake
whose first step wants to read both fail with the socket-closed error under
the same readiness-wait outcome. -/
theorem C10_read_closed_empty (havePoll : Bool) (self : PySSLSocket)
    (sock : Sock) (preReady : Bool) (rsteps : List RdStep) (e : Nat)
    (buflen : Int) (wsteps : List WrStep) (st : HsStep) (hrest : List HsStep)
    (fresh : Option Nat)
    (hsock : self.sockRef = some sock) (ht : 0 < sock.timeout)
    (hfd : sock.fd < 0) (hbuf : buflen ≤ INT_MAX)
    (hsig : st.sig = false) (herr : st.err = SSLerr.wantRead) :
    (PySSL_SSLread havePoll self 0 preReady rsteps e).outcome =
      RdOutcome.bytes 0 ∧
    (PySSL_SSLwrite havePoll self buflen preReady wsteps e).outcome =
      WrOutcome.closedErr ∧
    (PySSL_SSLdo_handshake havePoll self (st :: hrest) fresh e).outcome =
      HsOutcome.closedErr := by
  obtain ⟨sr, pc, sz⟩ := self
  simp only [PySSLSocket.sockRef] at hsock
  subst hsock
  refine ⟨?_, ?_, ?_⟩
  · simp [PySSL_SSLread, check_closed havePoll sock false preReady ht hfd]
  · have hnb : ¬buflen > INT_MAX := by omega
    simp [PySSL_SSLwrite, hnb, check_closed havePoll sock true preReady ht hfd]
  · simp [PySSL_SSLdo_handshake, hsLoop, hsig, herr,
      check_closed havePoll sock false st.ready ht hfd]

/-- Witness for C10: descriptor -1, timeout 1; read of a trace with no
pending bytes yields zero bytes while write and handshake report the closed
socket. -/
theorem C10_read_closed_empty_witness :
    ((⟨some ⟨-1, 1, true⟩, none, false⟩ : PySSLSocket).sockRef =
      some ⟨-1, 1, true⟩) ∧
    (0 : Int) < (1 : Int) ∧ (-1 : Int) < 0 ∧ (0 : Int) ≤ INT_MAX ∧
    (⟨-1, SSLerr.wantRead, false, true⟩ : HsStep).sig = false ∧
    (⟨-1, SSLerr.wantRead, false, true⟩ : HsStep).err = SSLerr.wantRead ∧
    ((PySSL_SSLread true ⟨some ⟨-1, 1, true⟩, none, false⟩ 0 true [] 0).outcome =
        RdOutcome.bytes 0 ∧
     (PySSL_SSLwrite true ⟨some ⟨-1, 1, true⟩, none, false⟩ 0 true [] 0).outcome =
        WrOutcome.closedErr ∧
     (PySSL_SSLdo_handshake true ⟨some ⟨-1, 1, true⟩, none, false⟩
        [⟨-1, SSLerr.wantRead, false, true⟩] none 0).outcome =
        HsOutcome.closedErr) :=
  ⟨rfl, by decide, by decide, by decide, rfl, rfl,
   C10_read_closed_empty true ⟨some ⟨-1, 1, true⟩, none, false⟩ ⟨-1, 1, true⟩
     true [] 0 0 [] ⟨-1, SSLerr.wantRead, false, true⟩ [] none rfl (by decide)
     (by decide) (by decide) rfl rfl⟩

/-- Helper: the shutdown loop consumes at most `2 - zeros` further zero
results when entered with the given counter value. -/
theorem sdLoop_zero_bound (havePoll : Bool) (sock : Sock) :
    ∀ (steps : List SdStep) (sz : Bool) (zeros : Nat), zeros ≤ 1 →
      ((sdLoop havePoll sock sz zeros steps).log.filter
        (fun it => it.ret = 0)).length + zeros ≤ 2 := by
  intro steps
  induction steps with
  | nil =>
    intro sz zeros hz
    simp [sdLoop]
    omega
  | cons step rest ih =>
    intro sz zeros hz
    by_cases h1 : step.ret > 0
    · have hne : ¬(step.ret = 0) := by omega
      simp only [sdLoop, if_pos h1]
      simp [hne]
      omega
    · by_cases h2 : step.ret = 0
      · by_cases h3 : zeros + 1 > 1
        · simp only [sdLoop, if_neg h1, if_pos h2, if_pos h3]
          simp [h2]
          omega
        · simp only [sdLoop, if_neg h1, if_pos h2, if_neg h3]
          have hrec := ih true (zeros + 1) (by omega)
          simp only [List.filter_cons] at hrec ⊢
          simp [h2] at hrec ⊢
          omega
      · by_cases h4 : step.err = SSLerr.wantRead ∨ step.err = SSLerr.wantWrite
        · simp only [sdLoop, if_neg h1, if_neg h2, if_pos h4]
          split_ifs with h5 h6 h7
          · simp [h2]; omega
          · simp [h2]; omega
          · simp [h2]; omega
          · have hrec := ih sz zeros hz
            simp [h2] at hrec ⊢
            omega
        · simp only [sdLoop, if_neg h1, if_neg h2, if_neg h4]
          simp [h2]
          omega

/-- Helper: a one-entry log trivially satisfies the read-ahead discipline. -/
theorem readAheadAfterZero_singleton (it : SdIter) :
    readAheadAfterZero [it] := by
  intro j hj hex
  obtain ⟨i, hi, _⟩ := hex
  simp at hj
  omega

/-- Helper: the read-ahead discipline is preserved by consing an iteration,
provided a zero result at the head forces every later iteration to have
read-ahead disabled. -/
theorem readAheadAfterZero_cons (it : SdIter) (log : List SdIter)
    (hall : it.ret = 0 → ∀ x ∈ log, x.readAheadOff = true)
    (htail : readAheadAfterZero log) :
    readAheadAfterZero (it :: log) := by
  intro j hj hex
  obtain ⟨i, hij, hzero⟩ := hex
  cases j with
  | zero => omega
  | succ k =>
    rw [List.getD_cons_succ]
    have hk : k < log.length := by simpa using hj
    cases i with
    | zero =>
      rw [List.getD_cons_zero] at hzero
      have hm : log.getD k ⟨false, 1⟩ ∈ log := by
        rw [List.getD_eq_getElem log _ hk]
        exact List.getElem_mem hk
      exact hall hzero _ hm
    | succ i' =>
      rw [List.getD_cons_succ] at hzero
      exact htail k hk ⟨i', by omega, hzero⟩

/-- Helper: the shutdown loop's log keeps read-ahead disabled on every
iteration once the seen-zero flag is set, and in particular on every
iteration after the first zero result. -/
theorem sdLoop_readAhead (havePoll : Bool) (sock : Sock) :
    ∀ (steps : List SdStep) (sz : Bool) (zeros : Nat),
      (sz = true → ∀ x ∈ (sdLoop havePoll sock sz zeros steps).log,
        x.readAheadOff = true) ∧
      readAheadAfterZero (sdLoop havePoll sock sz zeros steps).log := by
  intro steps
  induction steps with
  | nil =>
    intro sz zeros
    constructor
    · intro hsz x hx
      simp [sdLoop] at hx
    · intro j hj hex
      simp [sdLoop] at hj
  | cons step rest ih =>
    intro sz zeros
    by_cases h1 : step.ret > 0
    · simp only [sdLoop, if_pos h1]
      refine ⟨?_, readAheadAfterZero_singleton _⟩
      intro hsz x hx
      simp at hx
      subst hx
      exact hsz
    · by_cases h2 : step.ret = 0
      · by_cases h3 : zeros + 1 > 1
        · simp only [sdLoop, if_neg h1, if_pos h2, if_pos h3]
          refine ⟨?_, readAheadAfterZero_singleton _⟩
          intro hsz x hx
          simp at hx
          subst hx
          exact hsz
        · simp only [sdLoop, if_neg h1, if_pos h2, if_neg h3]
          constructor
          · intro hsz x hx
            simp only [List.mem_cons] at hx
            rcases hx with rfl | hx
            · exact hsz
            · exact (ih true (zeros + 1)).1 rfl x hx
          · refine readAheadAfterZero_cons _ _ ?_ (ih true (zeros + 1)).2
            intro _ x hx
            exact (ih true (zeros + 1)).1 rfl x hx
      · by_cases h4 : step.err = SSLerr.wantRead ∨ step.err = SSLerr.wantWrite
        · simp only [sdLoop, if_neg h1, if_neg h2, if_pos h4]
          split_ifs with h5 h6 h7
          · refine ⟨?_, readAheadAfterZero_singleton _⟩
            intro hsz x hx
            simp at hx
            subst hx
            exact hsz
          · refine ⟨?_, readAheadAfterZero_singleton _⟩
            intro hsz x hx
            simp at hx
            subst hx
            exact hsz
          · refine ⟨?_, readAheadAfterZero_singleton _⟩
            intro hsz x hx
            simp at hx
            subst hx
            exact hsz
          · constructor
            · intro hsz x hx
              simp only [List.mem_cons] at hx
              rcases hx with rfl | hx
              · exact hsz
              · exact (ih sz zeros).1 hsz x hx
            · refine readAheadAfterZero_cons _ _ ?_ (ih sz zeros).2
              intro h0
              exact absurd h0 h2
        · simp only [sdLoop, if_neg h1, if_neg h2, if_neg h4]
          refine ⟨?_, readAheadAfterZero_singleton _⟩
          intro hsz x hx
          simp at hx
          subst hx
          exact hsz

/-- Helper: whatever the exit, a live shutdown call's log is the loop's
log. -/
theorem shutdown_log_eq (havePoll : Bool) (sock : Sock) (pc : Option Nat)
    (sz : Bool) (steps : List SdStep) (e : Nat) (hfd : ¬sock.fd < 0) :
    (PySSL_SSLshutdown havePoll ⟨some sock, pc, sz⟩ steps e).log =
      (sdLoop havePoll sock sz 0 steps).log := by
  simp only [PySSL_SSLshutdown, if_neg hfd]
  rcases hexit : (sdLoop havePoll sock sz 0 steps).exit with ⟨ret, err⟩ | wr | _ | _
  · simp only [hexit]
    split_ifs <;> rfl
  · simp [hexit]
  · simp [hexit]
  · simp [hexit]

/-- C2: for every shutdown call, however many times the engine's shutdown
primitive reports zero, at most two "send-then-zero" rounds occur (the
zero-result counter caps further zero-result retries), and once a zero
result has been seen every subsequent iteration runs with read-ahead
buffering disabled. -/
theorem C2_shutdown_bounded (havePoll : Bool) (self : PySSLSocket)
    (steps : List SdStep) (e : Nat) :
    zeroRounds (PySSL_SSLshutdown havePoll self steps e).log ≤ 2 ∧
    readAheadAfterZero (PySSL_SSLshutdown havePoll self steps e).log := by
  obtain ⟨sr, pc, sz⟩ := self
  cases sr with
  | none =>
    constructor
    · simp [PySSL_SSLshutdown, zeroRounds]
    · intro j hj hex
      simp [PySSL_SSLshutdown] at hj
  | some sock =>
    by_cases hfd : sock.fd < 0
    · constructor
      · simp [PySSL_SSLshutdown, if_pos hfd, zeroRounds]
      · intro j hj hex
        simp [PySSL_SSLshutdown, if_pos hfd] at hj
    · rw [shutdown_log_eq havePoll sock pc sz steps e hfd]
      constructor
      · have hb := sdLoop_zero_bound havePoll sock steps sz 0 (by omega)
        unfold zeroRounds
        omega
      · exact (sdLoop_readAhead havePoll sock steps sz 0).2
